import Mathlib

/-!
Verification of the Adentify basketball-classifier core logic.

Part 1 embeds the consensus engine of `src/app/basketball_classifier_app.py`
(`calculate_consensus`, `get_confidence_trend`).  Part 2 embeds the volume
transition controller of `src/app/functionality.py` (`VolumeController`).
Confidences and volume levels are modelled as rationals (ℚ); prediction
history is a list of `(is_basketball, confidence)` pairs, most recent first.
-/

namespace Adentify

/-- One entry of `prediction_history`: `(is_basketball, confidence)`. -/
abbrev Sample := Bool × ℚ

/-- Source: `recency_weights = [max(0.5, 1.0 - 0.15 * i) for i in range(len(...))]`. -/
def recencyWeight (i : ℕ) : ℚ := max 0.5 (1.0 - 0.15 * i)

/-- Source: `confidence_certainty = abs(conf - 0.5) * 2; confidence_weight = 0.5 + confidence_certainty`. -/
def confidenceWeight (conf : ℚ) : ℚ := 0.5 + |conf - 0.5| * 2

/-- Source: `combined_weight = recency_weights[i] * confidence_weight`. -/
def combinedWeight (i : ℕ) (conf : ℚ) : ℚ := recencyWeight i * confidenceWeight conf

/-- Accumulator `effective_bb_count`: sum over the enumerated history of
`combined_weight` for basketball samples (`if is_bb: effective_bb_count += combined_weight`). -/
def effective_bb_count (h : List Sample) : ℚ :=
  (h.enum.map (fun p => if p.2.1 then combinedWeight p.1 p.2.2 else 0)).sum

/-- Accumulator `effective_not_bb_count`: the `else` branch
(`effective_not_bb_count += combined_weight`). -/
def effective_not_bb_count (h : List Sample) : ℚ :=
  (h.enum.map (fun p => if p.2.1 then 0 else combinedWeight p.1 p.2.2)).sum

/-- Accumulator `basketball_confidence` before normalization
(`basketball_confidence += combined_weight * conf`). -/
def basketball_confidence_sum (h : List Sample) : ℚ :=
  (h.enum.map (fun p => if p.2.1 then combinedWeight p.1 p.2.2 * p.2.2 else 0)).sum

/-- Accumulator `not_basketball_confidence` before normalization
(`not_basketball_confidence += combined_weight * (1.0 - conf)`). -/
def not_basketball_confidence_sum (h : List Sample) : ℚ :=
  (h.enum.map (fun p => if p.2.1 then 0 else combinedWeight p.1 p.2.2 * (1 - p.2.2))).sum

/-- Normalized `basketball_confidence`
(`if effective_bb_count > 0: basketball_confidence /= effective_bb_count`). -/
def basketball_confidence (h : List Sample) : ℚ :=
  if effective_bb_count h > 0 then basketball_confidence_sum h / effective_bb_count h
  else basketball_confidence_sum h

/-- Normalized `not_basketball_confidence`. -/
def not_basketball_confidence (h : List Sample) : ℚ :=
  if effective_not_bb_count h > 0 then not_basketball_confidence_sum h / effective_not_bb_count h
  else not_basketball_confidence_sum h

/-- Source: `calculate_consensus` (basketball_classifier_app.py, lines 382-434).
Returns `(None, 0.0)` on empty history, else decides via the effective-count
branches with the 1.1 stability threshold, falling back to comparing the two
normalized confidences. -/
def calculate_consensus (h : List Sample) : Option Bool × ℚ :=
  if h = [] then (none, 0.0)
  else
    if effective_bb_count h > effective_not_bb_count h * 1.1 then
      (some true, basketball_confidence h * 100)
    else if effective_not_bb_count h > effective_bb_count h * 1.1 then
      (some false, not_basketball_confidence h * 100)
    else
      if basketball_confidence h > not_basketball_confidence h then
        (some true, basketball_confidence h * 100)
      else
        (some false, not_basketball_confidence h * 100)

/-- Source: `get_confidence_trend` (basketball_classifier_app.py, lines 436-461).
`is_consensus` is `self.consensus_prediction` (`None` before any consensus).
The two most recent samples' confidences are expressed relative to the
consensus class (`conf` when the labels agree, `1.0 - conf` otherwise). -/
def get_confidence_trend (h : List Sample) (is_consensus : Option Bool) : String :=
  if h.length < 2 then "stable"
  else
    let confidences := (h.take 2).map (fun s => if some s.1 = is_consensus then s.2 else 1 - s.2)
    if confidences.length < 2 then "stable"
    else
      let diff := confidences.getD 0 0 - confidences.getD 1 0
      if |diff| < 0.05 then "stable"
      else if diff > 0 then "increasing"
      else "decreasing"

/-- The claim's weight formula, written from the spec's words:
`combinedWeight = max(0.5, 1.0 - 0.15*i) * (0.5 + |confidence - 0.5|*2)`. -/
def specCombinedWeight (i : ℕ) (conf : ℚ) : ℚ :=
  max (0.5 : ℚ) (1.0 - 0.15 * (i : ℚ)) * (0.5 + |conf - 0.5| * 2)

/-- Spec reading: the sum of combined weights of the positive samples. -/
def specPosWeightSum (h : List Sample) : ℚ :=
  ((h.enum.filter fun p => p.2.1).map fun p => specCombinedWeight p.1 p.2.2).sum

/-- Spec reading: the sum of combined weights of the negative samples. -/
def specNegWeightSum (h : List Sample) : ℚ :=
  ((h.enum.filter fun p => !p.2.1).map fun p => specCombinedWeight p.1 p.2.2).sum

/-- Spec reading: the positive class's normalized (weight-averaged) confidence. -/
def specPosNormConf (h : List Sample) : ℚ :=
  ((h.enum.filter fun p => p.2.1).map fun p => specCombinedWeight p.1 p.2.2 * p.2.2).sum /
    specPosWeightSum h

/-- Spec reading: the negative class's normalized (weight-averaged) confidence
(a negative sample's confidence in its own class is `1 - conf`). -/
def specNegNormConf (h : List Sample) : ℚ :=
  ((h.enum.filter fun p => !p.2.1).map fun p => specCombinedWeight p.1 p.2.2 * (1 - p.2.2)).sum /
    specNegWeightSum h

lemma combinedWeight_pos (i : ℕ) (conf : ℚ) : 0 < combinedWeight i conf := by
  unfold combinedWeight recencyWeight confidenceWeight
  have h1 : (0.5 : ℚ) ≤ max (0.5 : ℚ) (1.0 - 0.15 * (i : ℚ)) := le_max_left _ _
  have h2 : (0 : ℚ) ≤ |conf - 0.5| := abs_nonneg _
  nlinarith

lemma specCombinedWeight_eq (i : ℕ) (conf : ℚ) :
    specCombinedWeight i conf = combinedWeight i conf := by
  unfold specCombinedWeight combinedWeight recencyWeight confidenceWeight
  norm_num

lemma sum_ite_pos_nonneg (l : List (ℕ × Sample)) :
    0 ≤ (l.map fun p => if p.2.1 then combinedWeight p.1 p.2.2 else 0).sum := by
  induction l with
  | nil => simp
  | cons a l ih =>
    have hw := combinedWeight_pos a.1 a.2.2
    cases ha : a.2.1 <;> simp [ha] <;> linarith

lemma sum_ite_neg_nonneg (l : List (ℕ × Sample)) :
    0 ≤ (l.map fun p => if p.2.1 then 0 else combinedWeight p.1 p.2.2).sum := by
  induction l with
  | nil => simp
  | cons a l ih =>
    have hw := combinedWeight_pos a.1 a.2.2
    cases ha : a.2.1 <;> simp [ha] <;> linarith

lemma sum_ite_pos_eq_zero (l : List (ℕ × Sample)) (f : ℕ × Sample → ℚ)
    (h : (l.map fun p => if p.2.1 then combinedWeight p.1 p.2.2 else 0).sum = 0) :
    (l.map fun p => if p.2.1 then combinedWeight p.1 p.2.2 * f p else 0).sum = 0 := by
  induction l with
  | nil => simp
  | cons a l ih =>
    have hw := combinedWeight_pos a.1 a.2.2
    have hr := sum_ite_pos_nonneg l
    cases ha : a.2.1
    · simp [ha] at h ⊢
      exact ih h
    · exfalso
      simp [ha] at h
      linarith

lemma sum_ite_neg_eq_zero (l : List (ℕ × Sample)) (f : ℕ × Sample → ℚ)
    (h : (l.map fun p => if p.2.1 then 0 else combinedWeight p.1 p.2.2).sum = 0) :
    (l.map fun p => if p.2.1 then 0 else combinedWeight p.1 p.2.2 * f p).sum = 0 := by
  induction l with
  | nil => simp
  | cons a l ih =>
    have hw := combinedWeight_pos a.1 a.2.2
    have hr := sum_ite_neg_nonneg l
    cases ha : a.2.1
    · exfalso
      simp [ha] at h
      linarith
    · simp [ha] at h ⊢
      exact ih h

lemma sum_map_filter_pos (l : List (ℕ × Sample)) (f : ℕ × Sample → ℚ) :
    ((l.filter fun p => p.2.1).map f).sum = (l.map fun p => if p.2.1 then f p else 0).sum := by
  induction l with
  | nil => simp
  | cons a l ih =>
    cases ha : a.2.1 <;> simp [List.filter_cons, ha, ih]

lemma sum_map_filter_neg (l : List (ℕ × Sample)) (f : ℕ × Sample → ℚ) :
    ((l.filter fun p => !p.2.1).map f).sum = (l.map fun p => if p.2.1 then 0 else f p).sum := by
  induction l with
  | nil => simp
  | cons a l ih =>
    cases ha : a.2.1 <;> simp [List.filter_cons, ha, ih]

lemma effective_bb_count_nonneg (h : List Sample) : 0 ≤ effective_bb_count h := by
  unfold effective_bb_count
  exact sum_ite_pos_nonneg _

lemma effective_not_bb_count_nonneg (h : List Sample) : 0 ≤ effective_not_bb_count h := by
  unfold effective_not_bb_count
  exact sum_ite_neg_nonneg _

lemma specPosWeightSum_eq (h : List Sample) : specPosWeightSum h = effective_bb_count h := by
  unfold specPosWeightSum effective_bb_count
  rw [sum_map_filter_pos]
  simp only [specCombinedWeight_eq]

lemma specNegWeightSum_eq (h : List Sample) : specNegWeightSum h = effective_not_bb_count h := by
  unfold specNegWeightSum effective_not_bb_count
  rw [sum_map_filter_neg]
  simp only [specCombinedWeight_eq]

lemma specPosNormConf_eq (h : List Sample) : specPosNormConf h = basketball_confidence h := by
  have hnum : ((h.enum.filter fun p => p.2.1).map
      fun p => specCombinedWeight p.1 p.2.2 * p.2.2).sum = basketball_confidence_sum h := by
    rw [sum_map_filter_pos]
    unfold basketball_confidence_sum
    simp only [specCombinedWeight_eq]
  unfold specPosNormConf
  rw [hnum, specPosWeightSum_eq]
  unfold basketball_confidence
  by_cases hc : effective_bb_count h > 0
  · simp [hc]
  · have h0 : effective_bb_count h = 0 :=
      le_antisymm (le_of_not_lt hc) (effective_bb_count_nonneg h)
    have hz : basketball_confidence_sum h = 0 := by
      unfold basketball_confidence_sum
      unfold effective_bb_count at h0
      exact sum_ite_pos_eq_zero _ _ h0
    simp [hc, h0, hz]

lemma specNegNormConf_eq (h : List Sample) :
    specNegNormConf h = not_basketball_confidence h := by
  have hnum : ((h.enum.filter fun p => !p.2.1).map
      fun p => specCombinedWeight p.1 p.2.2 * (1 - p.2.2)).sum
      = not_basketball_confidence_sum h := by
    rw [sum_map_filter_neg]
    unfold not_basketball_confidence_sum
    simp only [specCombinedWeight_eq]
  unfold specNegNormConf
  rw [hnum, specNegWeightSum_eq]
  unfold not_basketball_confidence
  by_cases hc : effective_not_bb_count h > 0
  · simp [hc]
  · have h0 : effective_not_bb_count h = 0 :=
      le_antisymm (le_of_not_lt hc) (effective_not_bb_count_nonneg h)
    have hz : not_basketball_confidence_sum h = 0 := by
      unfold not_basketball_confidence_sum
      unfold effective_not_bb_count at h0
      exact sum_ite_neg_eq_zero _ _ h0
    simp [hc, h0, hz]

/-- The spec's raw-count-tie example history, most recent first. -/
def tiedHistory : List Sample := [(true, 0.9), (false, 0.9), (true, 0.9), (false, 0.9)]

/-- History witnessing the exact-confidence-tie branch. -/
def tieWitnessHistory : List Sample := [(true, 0.5), (false, 0.5), (false, 0.5), (true, 0.5)]

/-- C1: for every non-empty history of size at most 4, `calculate_consensus`
decides the label by the claimed rule: positive when the positive samples'
combined-weight sum exceeds 1.1 times the negative one, symmetrically
negative, and in the near-tie case the class with the strictly higher
normalized (weight-averaged) confidence wins; moreover on the raw-count-tie
history `[(true,0.9),(false,0.9),(true,0.9),(false,0.9)]` the consensus is
`(true, 90)`, the class with the higher weighted normalized confidence. -/
theorem consensus_decision_rule :
    (∀ h : List Sample, h ≠ [] → h.length ≤ 4 →
      (specPosWeightSum h > 1.1 * specNegWeightSum h →
        (calculate_consensus h).1 = some true) ∧
      (specNegWeightSum h > 1.1 * specPosWeightSum h →
        (calculate_consensus h).1 = some false) ∧
      (¬ specPosWeightSum h > 1.1 * specNegWeightSum h →
       ¬ specNegWeightSum h > 1.1 * specPosWeightSum h →
        (specPosNormConf h > specNegNormConf h → (calculate_consensus h).1 = some true) ∧
        (specNegNormConf h > specPosNormConf h → (calculate_consensus h).1 = some false))) ∧
    (calculate_consensus tiedHistory = (some true, 90) ∧
      specPosNormConf tiedHistory > specNegNormConf tiedHistory) := by
  constructor
  · intro h hne _
    have e1 := specPosWeightSum_eq h
    have e2 := specNegWeightSum_eq h
    have e3 := specPosNormConf_eq h
    have e4 := specNegNormConf_eq h
    have nb := effective_bb_count_nonneg h
    have nn := effective_not_bb_count_nonneg h
    refine ⟨?_, ?_, ?_⟩
    · intro hp
      rw [e1, e2] at hp
      have hc1 : effective_bb_count h > effective_not_bb_count h * 1.1 := by linarith
      simp [calculate_consensus, hne, hc1]
    · intro hn
      rw [e1, e2] at hn
      have hc1 : ¬ effective_bb_count h > effective_not_bb_count h * 1.1 := by
        intro hcon
        linarith
      have hc2 : effective_not_bb_count h > effective_bb_count h * 1.1 := by linarith
      simp [calculate_consensus, hne, hc1, hc2]
    · intro hn1 hn2
      rw [e1, e2] at hn1 hn2
      have hc1 : ¬ effective_bb_count h > effective_not_bb_count h * 1.1 := by
        intro hcon
        exact hn1 (by linarith)
      have hc2 : ¬ effective_not_bb_count h > effective_bb_count h * 1.1 := by
        intro hcon
        exact hn2 (by linarith)
      constructor
      · intro hgt
        rw [e3, e4] at hgt
        simp [calculate_consensus, hne, hc1, hc2, hgt]
      · intro hgt
        rw [e3, e4] at hgt
        have hc3 : ¬ basketball_confidence h > not_basketball_confidence h := lt_asymm hgt
        simp [calculate_consensus, hne, hc1, hc2, hc3]
  · constructor
    · norm_num [calculate_consensus, tiedHistory, basketball_confidence,
        not_basketball_confidence, effective_bb_count, effective_not_bb_count,
        basketball_confidence_sum, not_basketball_confidence_sum, combinedWeight,
        recencyWeight, confidenceWeight, List.enum, List.cons_ne_nil, max_def, abs]
    · norm_num [specPosNormConf, specNegNormConf, specPosWeightSum, specNegWeightSum,
        specCombinedWeight, tiedHistory, List.enum, List.filter, max_def, abs]

/-- Witness for C1: on the tied example history the first branch hypothesis
holds concretely and the consensus label is positive. -/
theorem consensus_decision_rule_witness :
    (calculate_consensus tiedHistory).1 = some true := by
  have h := (consensus_decision_rule.1 tiedHistory (by simp [tiedHistory])
    (by simp [tiedHistory]))
  exact h.1 (by norm_num [specPosWeightSum, specNegWeightSum, specCombinedWeight,
    tiedHistory, List.enum, List.filter, max_def, abs])

/-- C6: consensus on the empty history is the explicit unknown result
`(None, 0.0)`; `calculate_consensus` is a total function of the history, so
no exception can be raised. -/
theorem consensus_empty_history : calculate_consensus [] = (none, 0.0) := rfl

/-- C7: the singleton history `[(true, 0.9)]` yields consensus
`(true, 90)` exactly, under exact rational arithmetic. -/
theorem consensus_single_sample : calculate_consensus [(true, 0.9)] = (some true, 90) := by
  norm_num [calculate_consensus, basketball_confidence, not_basketball_confidence,
    effective_bb_count, effective_not_bb_count, basketball_confidence_sum,
    not_basketball_confidence_sum, combinedWeight, recencyWeight, confidenceWeight,
    List.enum, max_def, abs]

/-- C10: whenever a non-empty history falls into the near-tie branch (neither
effective weighted count exceeds 1.1 times the other) and the two normalized
class confidences are exactly equal, the consensus label is the negative
class `False`. -/
theorem consensus_exact_tie_negative :
    ∀ h : List Sample, h ≠ [] →
    ¬ effective_bb_count h > effective_not_bb_count h * 1.1 →
    ¬ effective_not_bb_count h > effective_bb_count h * 1.1 →
    basketball_confidence h = not_basketball_confidence h →
    (calculate_consensus h).1 = some false := by
  intro h hne h1 h2 heq
  have h3 : ¬ basketball_confidence h > not_basketball_confidence h := by
    rw [heq]
    exact lt_irrefl _
  simp [calculate_consensus, hne, h1, h2, h3]

/-- Witness for C10: the history `[(true,0.5),(false,0.5),(false,0.5),(true,0.5)]`
has equal effective counts (0.775 each) and equal normalized confidences
(0.5 each), and its consensus label is `False`. -/
theorem consensus_exact_tie_negative_witness :
    (calculate_consensus tieWitnessHistory).1 = some false := by
  apply consensus_exact_tie_negative tieWitnessHistory
  · simp [tieWitnessHistory]
  · norm_num [tieWitnessHistory, effective_bb_count, effective_not_bb_count,
      combinedWeight, recencyWeight, confidenceWeight, List.enum, max_def, abs]
  · norm_num [tieWitnessHistory, effective_bb_count, effective_not_bb_count,
      combinedWeight, recencyWeight, confidenceWeight, List.enum, max_def, abs]
  · norm_num [tieWitnessHistory, basketball_confidence, not_basketball_confidence,
      effective_bb_count, effective_not_bb_count, basketball_confidence_sum,
      not_basketball_confidence_sum, combinedWeight, recencyWeight, confidenceWeight,
      List.enum, max_def, abs]

/-- The C2 claim read literally: a sample disagreeing with the consensus
contributes its negated confidence, and with `diff` the signed difference
newest minus second-newest the cases are `diff < 0.05` → "stable", positive
`diff` → "increasing", else "decreasing". -/
def trendClaimLiteral (h : List Sample) (is_consensus : Option Bool) : String :=
  if h.length < 2 then "stable"
  else
    let confidences := (h.take 2).map (fun s => if some s.1 = is_consensus then s.2 else -s.2)
    let diff := confidences.getD 0 0 - confidences.getD 1 0
    if diff < 0.05 then "stable"
    else if diff > 0 then "increasing"
    else "decreasing"

/-- The C2 claim as amended: `|diff| < 0.05` (not the signed `diff`) yields
"stable", and a disagreeing sample contributes the complement
`1 - confidence`, its confidence in the consensus class. -/
def trendSpecAmended (h : List Sample) (is_consensus : Option Bool) : String :=
  if h.length < 2 then "stable"
  else
    let s0 := h.getD 0 (true, 0)
    let s1 := h.getD 1 (true, 0)
    let r0 := if some s0.1 = is_consensus then s0.2 else 1 - s0.2
    let r1 := if some s1.1 = is_consensus then s1.2 else 1 - s1.2
    let diff := r0 - r1
    if |diff| < 0.05 then "stable"
    else if diff > 0 then "increasing"
    else "decreasing"

/-- Counterexample to C2 as stated: on history `[(true,0.3),(true,0.9)]` with
consensus `true` the signed difference is `-0.6`; the claim's literal rule
(`difference < 0.05` → "stable") yields "stable", but the code compares
`|difference|` and returns "decreasing". -/
theorem trend_claim_counterexample :
    get_confidence_trend [(true, 0.3), (true, 0.9)] (some true) = "decreasing" ∧
    trendClaimLiteral [(true, 0.3), (true, 0.9)] (some true) = "stable" := by
  constructor
  · norm_num [get_confidence_trend, List.getD, abs]
  · norm_num [trendClaimLiteral, List.getD]

/-- C2 amended: with fewer than 2 samples the trend is "stable"; otherwise,
expressing the two most recent confidences relative to the consensus class
(`1 - confidence` for a disagreeing sample) and taking `diff` = newest minus
second-newest, `|diff| < 0.05` gives "stable", positive `diff` gives
"increasing", else "decreasing"; in particular `[(true,0.9),(true,0.6)]`
with consensus `true` gives "increasing". -/
theorem trend_rule_amended :
    (∀ (h : List Sample) (c : Option Bool), get_confidence_trend h c = trendSpecAmended h c) ∧
    get_confidence_trend [(true, 0.9), (true, 0.6)] (some true) = "increasing" := by
  constructor
  · intro h c
    match h with
    | [] => rfl
    | [a] => rfl
    | a :: b :: t =>
      simp [get_confidence_trend, trendSpecAmended, List.getD]
  · norm_num [get_confidence_trend, List.getD, abs]

/-- State of `VolumeController` (functionality.py).  Device interaction is
made explicit: reads come in as `Option ℚ` (`none` models a raised
exception inside `GetMasterVolumeLevelScalar`), and a write's success is an
explicit `Bool`. -/
structure VCState where
  original_volume : ℚ
  target_volume : ℚ
  current_volume : ℚ
  user_basketball_volume : ℚ
  volume_reduction_factor : ℚ
  fade_duration : ℚ
  fade_steps : ℕ
  is_basketball : Bool
  is_transitioning : Bool
  running : Bool
deriving DecidableEq

/-- Source: `get_volume` (functionality.py, lines 44-51): return the scalar
device level, or the fallback `1.0` when the read raised. -/
def get_volume (read : Option ℚ) : ℚ :=
  match read with
  | some v => v
  | none => 1.0

/-- Result of `set_volume`: the updated controller state, the level actually
written to the device (if any), and the returned boolean. -/
structure SetResult where
  state : VCState
  written : Option ℚ
  ret : Bool
deriving DecidableEq

/-- Source: `set_volume` (functionality.py, lines 53-63): clamp the level to
[0,1], write it and record it in `current_volume`, returning `True`; when
the device write raises, return `False` with the state unchanged. -/
def set_volume (s : VCState) (level : ℚ) (ok : Bool) : SetResult :=
  if ok then
    let l := max 0.0 (min 1.0 level)
    { state := { s with current_volume := l }, written := some l, ret := true }
  else
    { state := s, written := none, ret := false }

/-- Source: `__init__` (functionality.py, lines 13-42): capture the device
level once into `original_volume` and initialize every level field to it. -/
def VolumeController_init (read : Option ℚ) : VCState :=
  let orig := get_volume read
  { original_volume := orig
    target_volume := orig
    current_volume := orig
    user_basketball_volume := orig
    volume_reduction_factor := 0.2
    fade_duration := 1.0
    fade_steps := 20
    is_basketball := true
    is_transitioning := false
    running := true }

/-- One iteration of the `monitor_volume` loop body (functionality.py,
lines 71-95), given this tick's device read; `last_checked` is the
loop-local `last_checked_volume`, returned updated. -/
def monitor_tick (s : VCState) (last_checked : ℚ) (read : Option ℚ) : VCState × ℚ :=
  if s.is_basketball && !s.is_transitioning then
    let current_vol := get_volume read
    let s1 := if |current_vol - last_checked| > 0.01 then
        { s with user_basketball_volume := current_vol, current_volume := current_vol }
      else s
    ({ s1 with user_basketball_volume := current_vol }, current_vol)
  else (s, last_checked)

/-- Result of `update_classification`: the new state, whether the live
device level was read, and `some (start, target)` when a fade was started. -/
structure UpdateResult where
  state : VCState
  didRead : Bool
  fade : Option (ℚ × ℚ)
deriving DecidableEq

/-- Source: `update_classification` (functionality.py, lines 118-188):
early return when the classification is unchanged; otherwise read the live
level once, update the state and the target, and start a fade unless the
live level is already within 0.01 of the target. -/
def update_classification (s : VCState) (read : Option ℚ) (is_basketball : Bool)
    (confidence : ℚ) : UpdateResult :=
  if s.is_basketball = is_basketball then { state := s, didRead := false, fade := none }
  else
    let current_system_volume := get_volume read
    let prev_state := s.is_basketball
    let s1 := { s with is_basketball := is_basketball }
    let confidence_factor := min 1.0 (confidence / 100.0)
    let s2 :=
      if is_basketball then
        if !prev_state then { s1 with target_volume := s1.user_basketball_volume }
        else { s1 with target_volume := current_system_volume }
      else
        let s1x := if !s1.is_transitioning then
            { s1 with user_basketball_volume := current_system_volume }
          else s1
        let reduced_volume := s1x.user_basketball_volume * s1x.volume_reduction_factor *
          confidence_factor
        { s1x with target_volume := max reduced_volume (s1x.user_basketball_volume * 0.1) }
    if |current_system_volume - s2.target_volume| < 0.01 then
      { state := s2, didRead := true, fade := none }
    else
      { state := s2, didRead := true, fade := some (current_system_volume, s2.target_volume) }

/-- Source: `np.linspace(start_vol, end_vol, steps)` as used by
`fade_volume`: `steps` evenly spaced levels from start to end inclusive. -/
def volume_steps (start_vol end_vol : ℚ) (steps : ℕ) : List ℚ :=
  (List.range steps).map fun i => start_vol + (end_vol - start_vol) * i / ((steps : ℚ) - 1)

/-- Source: `fade_volume` (functionality.py, lines 97-116): mark the
transition, write each interpolated level while `running` holds, ensure the
final level if still running, then clear the transition flag.  Device
writes are taken as succeeding; a failing write is a state no-op
(`set_volume`). -/
def fade_volume (s : VCState) (start_vol end_vol : ℚ) (steps : ℕ) : VCState :=
  let s1 := { s with is_transitioning := true }
  let s2 := (volume_steps start_vol end_vol steps).foldl
    (fun st v => if st.running then (set_volume st v true).state else st) s1
  let s3 := if s2.running then (set_volume s2 end_vol true).state else s2
  { s3 with is_transitioning := false }

/-- Source: `restore_volume` (functionality.py, lines 190-200): clear the
running flag, then set the device back to `original_volume`. -/
def restore_volume (s : VCState) (ok : Bool) : SetResult :=
  set_volume { s with running := false } s.original_volume ok

/-- Source: `set_fade_duration` (functionality.py, lines 202-204). -/
def set_fade_duration (s : VCState) (seconds : ℚ) : VCState :=
  { s with fade_duration := max 0.1 seconds }

/-- Source: `set_volume_reduction` (functionality.py, lines 206-208). -/
def set_volume_reduction (s : VCState) (reduction_factor : ℚ) : VCState :=
  { s with volume_reduction_factor := max 0.0 (min 1.0 reduction_factor) }

/-- C9: device failures degrade gracefully: a failed read yields the safe
fallback `1.0`, and a failed write returns `False`, writes nothing, and
leaves the whole controller state (in particular `current_volume`)
unchanged. -/
theorem device_failure_graceful :
    get_volume none = 1.0 ∧
    ∀ (s : VCState) (level : ℚ),
      (set_volume s level false).ret = false ∧
      (set_volume s level false).state = s ∧
      (set_volume s level false).written = none :=
  ⟨rfl, fun _ _ => ⟨rfl, rfl, rfl⟩⟩

/-- C3: from a positive, non-transitioning state, a classification change to
negative first snapshots the live level into `user_basketball_volume`, then
sets the target to
`max (baseline * reductionFactor * min 1 (confidence/100)) (baseline * 0.1)`
with the snapshotted live level as baseline. -/
theorem update_to_negative_target :
    ∀ (s : VCState) (live confidence : ℚ),
      s.is_basketball = true → s.is_transitioning = false →
      (update_classification s (some live) false confidence).state.user_basketball_volume
        = live ∧
      (update_classification s (some live) false confidence).state.target_volume
        = max (live * s.volume_reduction_factor * min 1.0 (confidence / 100.0))
            (live * 0.1) := by
  intro s live confidence hb ht
  have hne : ¬ s.is_basketball = false := by simp [hb]
  unfold update_classification
  simp [hne, get_volume, ht, apply_ite]

/-- Witness for C3: starting from the freshly constructed controller at live
level 0.8, a transition to negative with confidence 100 computes target
0.16 exactly. -/
theorem update_to_negative_target_witness :
    (update_classification (VolumeController_init (some 0.8)) (some 0.8) false
      100).state.target_volume = 0.16 := by
  have h := update_to_negative_target (VolumeController_init (some 0.8)) 0.8 100 rfl rfl
  rw [h.2]
  norm_num [VolumeController_init, get_volume, min_def, max_def]

lemma update_classification_noop (s : VCState) (read : Option ℚ) (b : Bool) (c : ℚ)
    (h : s.is_basketball = b) :
    update_classification s read b c = { state := s, didRead := false, fade := none } := by
  unfold update_classification
  simp [h]

lemma update_classification_sets_flag (s : VCState) (read : Option ℚ) (b : Bool) (c : ℚ) :
    (update_classification s read b c).state.is_basketball = b := by
  unfold update_classification
  by_cases h : s.is_basketball = b
  · simp [h]
  · simp only [h, if_false]
    split_ifs <;> rfl

/-- C4: `update_classification` is idempotent in its boolean argument: after
any call with value `b`, a second call with the same `b` (any read outcome,
any confidence) returns the state unchanged, performs no device read, and
starts no fade. -/
theorem update_classification_idempotent :
    ∀ (s : VCState) (read read2 : Option ℚ) (b : Bool) (c c2 : ℚ),
      update_classification (update_classification s read b c).state read2 b c2
        = { state := (update_classification s read b c).state,
            didRead := false, fade := none } :=
  fun s read read2 b c c2 =>
    update_classification_noop _ read2 b c2 (update_classification_sets_flag s read b c)

lemma foldl_set_volume_original (l : List ℚ) (s : VCState) :
    (l.foldl (fun st v => if st.running then (set_volume st v true).state else st)
      s).original_volume = s.original_volume := by
  induction l generalizing s with
  | nil => rfl
  | cons a l ih =>
    simp only [List.foldl_cons]
    rw [ih]
    by_cases h : s.running <;> simp [h, set_volume]

lemma set_volume_state_original (st : VCState) (v : ℚ) (ok : Bool) :
    (set_volume st v ok).state.original_volume = st.original_volume := by
  cases ok <;> simp [set_volume]

lemma fade_volume_original (s : VCState) (a b : ℚ) (n : ℕ) :
    (fade_volume s a b n).original_volume = s.original_volume := by
  unfold fade_volume
  dsimp only
  split_ifs with h <;>
    simp [set_volume_state_original, foldl_set_volume_original]

/-- C5: shutdown always clears the running flag; `original_volume` is never
changed by any operation after construction; and when the final device
write succeeds and `original_volume` lies in [0,1] (as any captured device
read does), the level written back to the device is exactly
`original_volume`. -/
theorem restore_volume_restores :
    ∀ (s : VCState) (ok : Bool),
      (restore_volume s ok).state.running = false ∧
      (restore_volume s ok).state.original_volume = s.original_volume ∧
      (ok = true → 0 ≤ s.original_volume → s.original_volume ≤ 1 →
        (restore_volume s ok).written = some s.original_volume ∧
        (restore_volume s ok).state.current_volume = s.original_volume) ∧
      (∀ (read : Option ℚ) (b : Bool) (c : ℚ),
        (update_classification s read b c).state.original_volume = s.original_volume) ∧
      (∀ (last : ℚ) (read : Option ℚ),
        (monitor_tick s last read).1.original_volume = s.original_volume) ∧
      (∀ (a b : ℚ) (n : ℕ), (fade_volume s a b n).original_volume = s.original_volume) := by
  intro s ok
  refine ⟨?_, ?_, ?_, ?_, ?_, ?_⟩
  · unfold restore_volume set_volume
    cases ok <;> simp
  · unfold restore_volume set_volume
    cases ok <;> simp
  · intro hok h0 h1
    subst hok
    have hcl : max 0.0 (min 1.0 s.original_volume) = s.original_volume := by
      rw [min_eq_right (by linarith), max_eq_right (by linarith)]
    unfold restore_volume set_volume
    simp [hcl]
  · intro read b c
    unfold update_classification
    by_cases h : s.is_basketball = b
    · simp [h]
    · simp only [h, if_false]
      split_ifs <;> rfl
  · intro last read
    unfold monitor_tick
    split_ifs with h1
    · dsimp only
      split_ifs <;> rfl
    · rfl
  · intro a b n
    exact fade_volume_original s a b n

/-- Witness for C5: restoring a freshly constructed controller (captured
level 0.7) with a succeeding write clears the running flag and writes 0.7
back to the device. -/
theorem restore_volume_restores_witness :
    (restore_volume (VolumeController_init (some 0.7)) true).state.running = false ∧
    (restore_volume (VolumeController_init (some 0.7)) true).written = some 0.7 := by
  have h := restore_volume_restores (VolumeController_init (some 0.7)) true
  have h3 := h.2.2.1 rfl (by norm_num [VolumeController_init, get_volume])
    (by norm_num [VolumeController_init, get_volume])
  refine ⟨h.1, ?_⟩
  rw [h3.1]
  norm_num [VolumeController_init, get_volume]

/-- All level fields of the controller, and the reduction factor, lie in
[0,1]. -/
def LevelsInRange (s : VCState) : Prop :=
  0 ≤ s.original_volume ∧ s.original_volume ≤ 1 ∧
  0 ≤ s.target_volume ∧ s.target_volume ≤ 1 ∧
  0 ≤ s.current_volume ∧ s.current_volume ≤ 1 ∧
  0 ≤ s.user_basketball_volume ∧ s.user_basketball_volume ≤ 1 ∧
  0 ≤ s.volume_reduction_factor ∧ s.volume_reduction_factor ≤ 1

/-- Hypothesis of C8: every successful external read is a level in [0,1]. -/
def ReadInRange (read : Option ℚ) : Prop := ∀ v, read = some v → 0 ≤ v ∧ v ≤ 1

lemma get_volume_mem (read : Option ℚ) (h : ReadInRange read) :
    0 ≤ get_volume read ∧ get_volume read ≤ 1 := by
  cases read with
  | none => norm_num [get_volume]
  | some v => simpa [get_volume] using h v rfl

lemma clamp_mem (x : ℚ) : 0 ≤ max 0.0 (min 1.0 x) ∧ max 0.0 (min 1.0 x) ≤ 1 := by
  constructor
  · exact le_max_of_le_left (by norm_num)
  · exact max_le (by norm_num) (le_trans (min_le_left _ _) (by norm_num))

lemma reduced_le_one {u rf cf : ℚ} (hu0 : 0 ≤ u) (hu1 : u ≤ 1) (hrf0 : 0 ≤ rf)
    (hrf1 : rf ≤ 1) (hcf : cf ≤ 1) : u * rf * cf ≤ 1 := by
  nlinarith [mul_nonneg (mul_nonneg hu0 hrf0) (sub_nonneg.mpr hcf),
    mul_nonneg hu0 (sub_nonneg.mpr hrf1)]

lemma target_bounds {u rf cf : ℚ} (hu0 : 0 ≤ u) (hu1 : u ≤ 1) (hrf0 : 0 ≤ rf)
    (hrf1 : rf ≤ 1) (hcf : cf ≤ 1) :
    0 ≤ max (u * rf * cf) (u * 0.1) ∧ max (u * rf * cf) (u * 0.1) ≤ 1 := by
  constructor
  · exact le_max_of_le_right (by nlinarith)
  · exact max_le (reduced_le_one hu0 hu1 hrf0 hrf1 hcf) (by nlinarith)

lemma set_volume_preserves (s : VCState) (level : ℚ) (ok : Bool)
    (h : LevelsInRange s) : LevelsInRange (set_volume s level ok).state := by
  obtain ⟨h1, h2, h3, h4, h5, h6, h7, h8, h9, h10⟩ := h
  cases ok
  · exact ⟨h1, h2, h3, h4, h5, h6, h7, h8, h9, h10⟩
  · exact ⟨h1, h2, h3, h4, (clamp_mem level).1, (clamp_mem level).2, h7, h8, h9, h10⟩

lemma init_in_range (read : Option ℚ) (hr : ReadInRange read) :
    LevelsInRange (VolumeController_init read) := by
  obtain ⟨hg0, hg1⟩ := get_volume_mem read hr
  exact ⟨hg0, hg1, hg0, hg1, hg0, hg1, hg0, hg1, by norm_num [VolumeController_init],
    by norm_num [VolumeController_init]⟩

lemma monitor_tick_preserves (s : VCState) (last : ℚ) (read : Option ℚ)
    (hr : ReadInRange read) (h : LevelsInRange s) :
    LevelsInRange (monitor_tick s last read).1 := by
  obtain ⟨h1, h2, h3, h4, h5, h6, h7, h8, h9, h10⟩ := h
  obtain ⟨hg0, hg1⟩ := get_volume_mem read hr
  unfold monitor_tick
  split_ifs with hc
  · dsimp only
    split_ifs with hc2
    · exact ⟨h1, h2, h3, h4, hg0, hg1, hg0, hg1, h9, h10⟩
    · exact ⟨h1, h2, h3, h4, h5, h6, hg0, hg1, h9, h10⟩
  · exact ⟨h1, h2, h3, h4, h5, h6, h7, h8, h9, h10⟩

lemma update_classification_preserves (s : VCState) (read : Option ℚ) (b : Bool) (c : ℚ)
    (hr : ReadInRange read) (h : LevelsInRange s) :
    LevelsInRange (update_classification s read b c).state := by
  obtain ⟨h1, h2, h3, h4, h5, h6, h7, h8, h9, h10⟩ := h
  obtain ⟨hg0, hg1⟩ := get_volume_mem read hr
  have hcf : min 1.0 (c / 100.0) ≤ 1 := by
    have := min_le_left (1.0 : ℚ) (c / 100.0)
    linarith
  unfold update_classification
  by_cases hb : s.is_basketball = b
  · rw [if_pos hb]
    exact ⟨h1, h2, h3, h4, h5, h6, h7, h8, h9, h10⟩
  · rw [if_neg hb]
    dsimp only
    split_ifs
    all_goals first
    | exact ⟨h1, h2, h7, h8, h5, h6, h7, h8, h9, h10⟩
    | exact ⟨h1, h2, hg0, hg1, h5, h6, h7, h8, h9, h10⟩
    | exact ⟨h1, h2, (target_bounds hg0 hg1 h9 h10 hcf).1,
        (target_bounds hg0 hg1 h9 h10 hcf).2, h5, h6, hg0, hg1, h9, h10⟩
    | exact ⟨h1, h2, (target_bounds h7 h8 h9 h10 hcf).1,
        (target_bounds h7 h8 h9 h10 hcf).2, h5, h6, h7, h8, h9, h10⟩

lemma foldl_set_volume_preserves (l : List ℚ) (s : VCState) (h : LevelsInRange s) :
    LevelsInRange (l.foldl
      (fun st v => if st.running then (set_volume st v true).state else st) s) := by
  induction l generalizing s with
  | nil => exact h
  | cons a l ih =>
    simp only [List.foldl_cons]
    apply ih
    by_cases hr : s.running = true
    · rw [if_pos hr]
      exact set_volume_preserves s a true h
    · rw [if_neg hr]
      exact h

lemma fade_volume_preserves (s : VCState) (a b : ℚ) (n : ℕ) (h : LevelsInRange s) :
    LevelsInRange (fade_volume s a b n) := by
  unfold fade_volume
  dsimp only
  have h1 : LevelsInRange ({ s with is_transitioning := true } : VCState) := h
  have h2 := foldl_set_volume_preserves (volume_steps a b n) _ h1
  split_ifs with hr
  · have h3 := set_volume_preserves (List.foldl
      (fun st v => if st.running then (set_volume st v true).state else st)
      { s with is_transitioning := true } (volume_steps a b n)) b true h2
    exact h3
  · exact h2

/-- C8: all levels are clamped: a successful `set_volume` writes and records
exactly the [0,1]-clamped level, and — assuming every external read lies in
[0,1] — the four level fields (with the reduction factor) are in [0,1] at
construction and are preserved by every controller operation. -/
theorem levels_clamped_invariant :
    (∀ (s : VCState) (level : ℚ),
      (set_volume s level true).state.current_volume = max 0.0 (min 1.0 level) ∧
      (set_volume s level true).written = some (max 0.0 (min 1.0 level)) ∧
      0 ≤ max 0.0 (min 1.0 level) ∧ max 0.0 (min 1.0 level) ≤ 1) ∧
    (∀ read, ReadInRange read → LevelsInRange (VolumeController_init read)) ∧
    (∀ (s : VCState) (read : Option ℚ) (b : Bool) (c : ℚ), ReadInRange read →
      LevelsInRange s → LevelsInRange (update_classification s read b c).state) ∧
    (∀ (s : VCState) (last : ℚ) (read : Option ℚ), ReadInRange read →
      LevelsInRange s → LevelsInRange (monitor_tick s last read).1) ∧
    (∀ (s : VCState) (level : ℚ) (ok : Bool),
      LevelsInRange s → LevelsInRange (set_volume s level ok).state) ∧
    (∀ (s : VCState) (ok : Bool),
      LevelsInRange s → LevelsInRange (restore_volume s ok).state) ∧
    (∀ (s : VCState) (a b : ℚ) (n : ℕ),
      LevelsInRange s → LevelsInRange (fade_volume s a b n)) ∧
    (∀ (s : VCState) (x : ℚ), LevelsInRange s → LevelsInRange (set_fade_duration s x)) ∧
    (∀ (s : VCState) (x : ℚ), LevelsInRange s → LevelsInRange (set_volume_reduction s x)) := by
  refine ⟨?_, ?_, ?_, ?_, ?_, ?_, ?_, ?_, ?_⟩
  · intro s level
    exact ⟨rfl, rfl, (clamp_mem level).1, (clamp_mem level).2⟩
  · exact init_in_range
  · intro s read b c hr h
    exact update_classification_preserves s read b c hr h
  · intro s last read hr h
    exact monitor_tick_preserves s last read hr h
  · intro s level ok h
    exact set_volume_preserves s level ok h
  · intro s ok h
    exact set_volume_preserves _ _ ok h
  · intro s a b n h
    exact fade_volume_preserves s a b n h
  · intro s x h
    obtain ⟨h1, h2, h3, h4, h5, h6, h7, h8, h9, h10⟩ := h
    exact ⟨h1, h2, h3, h4, h5, h6, h7, h8, h9, h10⟩
  · intro s x h
    obtain ⟨h1, h2, h3, h4, h5, h6, h7, h8, h9, h10⟩ := h
    exact ⟨h1, h2, h3, h4, h5, h6, h7, h8, (clamp_mem x).1, (clamp_mem x).2⟩

/-- Witness for C8: starting from the freshly constructed controller at
level 0.5, a classification update to negative with confidence 80 keeps
every level field inside [0,1]. -/
theorem levels_clamped_invariant_witness :
    LevelsInRange (update_classification (VolumeController_init (some 0.5)) (some 0.5)
      false 80).state := by
  apply levels_clamped_invariant.2.2.1
  · intro v hv
    injection hv with hv2
    constructor <;> rw [← hv2] <;> norm_num
  · apply levels_clamped_invariant.2.1
    intro v hv
    injection hv with hv2
    constructor <;> rw [← hv2] <;> norm_num

end Adentify
